import Mathlib

/-!
Shallow embedding of the client-side voice interaction engine of
`src/frontend/src/components/InterviewInterface.jsx`.

Times are in milliseconds (`Nat`); frequency-bin magnitudes are bytes
(`Nat`, 0..255) and averages are exact rationals (`ℚ`), mirroring the
JavaScript floating-point mean on the byte data (exact for these sizes).
-/

namespace Granitalent

/-! ### Voice Activity Detection settings (lines 17-25 of the source) -/

def SILENCE_THRESHOLD : ℕ := 30
def MIN_SPEECH_VOLUME : ℕ := 35
def SILENCE_DURATION : ℕ := 2500
def SPEECH_MIN_DURATION : ℕ := 600
def MAX_RECORDING_DURATION : ℕ := 60000
def RESPONSE_DEBOUNCE_MS : ℕ := 2000
def FORCE_STOP_AFTER_MS : ℕ := 45000
def LOW_ACTIVITY_TIMEOUT_MS : ℕ := 8000

/-- Values of the named constants in the "Voice Activity Detection settings"
configuration block at the top of the component. -/
def vadSettings : List ℕ :=
  [SILENCE_THRESHOLD, MIN_SPEECH_VOLUME, SILENCE_DURATION, SPEECH_MIN_DURATION,
   MAX_RECORDING_DURATION, RESPONSE_DEBOUNCE_MS, FORCE_STOP_AFTER_MS,
   LOW_ACTIVITY_TIMEOUT_MS]

/-! ### Frame analysis inside `checkVoiceActivity` (lines 673-682)

`dataArray.slice(2, 128)` keeps bins 2..127; `average` is the arithmetic
mean of the kept bins; `peak` is `Math.max` over the kept bins. -/

/-- Sub-band kept by `dataArray.slice(2, 128)`. -/
def speechBand (data : List ℕ) : List ℕ := (data.drop 2).take 126

/-- Mean magnitude over the speech sub-band
(`relevantData.reduce((a, b) => a + b, 0) / relevantData.length`). -/
def bandAverage (data : List ℕ) : ℚ :=
  ((speechBand data).sum : ℚ) / ((speechBand data).length : ℚ)

/-- Peak magnitude over the speech sub-band (`Math.max(...relevantData)`). -/
def bandPeak (data : List ℕ) : ℕ := (speechBand data).foldr max 0

/-- Click detector of line 712: `peak > 200 && average < 20`. -/
def isLikelyClick (peak : ℕ) (average : ℚ) : Bool :=
  decide (200 < peak) && decide (average < 20)

/-- Speech detector of line 713: `average > MIN_SPEECH_VOLUME && !isLikelyClick`. -/
def isLikelySpeech (peak : ℕ) (average : ℚ) : Bool :=
  decide ((MIN_SPEECH_VOLUME : ℚ) < average) && !(isLikelyClick peak average)

/-- Modelled from the spec: the classification rule of section 4.1, parametric
in the three thresholds — speech iff `average > svt` and not
(`peak > cpt` and `average < cat`). -/
def specSpeechRule (svt cpt cat : ℚ) (peak : ℕ) (average : ℚ) : Bool :=
  decide (svt < average) && !(decide (cpt < (peak : ℚ)) && decide (average < cat))

/-! ### VAD / recording state machine (`checkVoiceActivity`, lines 666-755)

The refs read and written by a VAD tick are gathered in `VadState`; the
externally visible call made (if any) is a `VadAction`, labelled by the
distinct code path that produced it. -/

/-- Externally visible call made by one VAD tick. -/
inductive VadAction where
  | none
  | stopMaxDuration
  | stopForceStop
  | stopLowActivity
  | stopSilence
  | cancelTooShort
  | startRec
  deriving DecidableEq, Repr

/-- Refs of the component read or written by `checkVoiceActivity`. -/
structure VadState where
  analyserPresent : Bool
  mediaStreamPresent : Bool
  mediaRecorderPresent : Bool
  isListening : Bool
  isAudioPlaying : Bool
  processingResponse : Bool
  isRecording : Bool
  recordingStartTime : Option ℕ
  silenceStart : Option ℕ
  speechStart : Option ℕ
  lastStrongSpeech : Option ℕ
  deriving DecidableEq, Repr

/-- Effect of `stopRecording` (lines 872-883) on the VAD-visible refs:
guarded on an active recording and a recorder; calls `stopListening`
(clears `isListening`) and clears `isRecording`. -/
def stopRecordingS (s : VadState) : VadState :=
  if !s.isRecording || !s.mediaRecorderPresent then s
  else { s with isListening := false, isRecording := false }

/-- Effect of `cancelRecording` (lines 885-896) on the VAD-visible refs:
guarded only on a recorder being present; clears `isRecording` and
`recordingStartTime`, does not touch `isListening`. -/
def cancelRecordingS (s : VadState) : VadState :=
  if !s.mediaRecorderPresent then s
  else { s with isRecording := false, recordingStartTime := none }

/-- Effect of `startRecording` (lines 757-832) on the VAD-visible refs:
guarded on not recording and a live media stream; creates the recorder,
sets `isRecording` and `recordingStartTime`. -/
def startRecordingS (s : VadState) (now : ℕ) : VadState × VadAction :=
  if s.isRecording || !s.mediaStreamPresent then (s, VadAction.none)
  else ({ s with isRecording := true, recordingStartTime := some now,
                 mediaRecorderPresent := true }, VadAction.startRec)

/-- Speech/silence half of the tick (lines 710-754), reached when no
failsafe fired: strong-speech tracking, then onset / silence accounting
with the stop-vs-cancel decision. -/
def vadClassify (s : VadState) (now : ℕ) (average : ℚ) (peak : ℕ) :
    VadState × VadAction :=
  let s1 := if (MIN_SPEECH_VOLUME : ℚ) * (3 / 2) < average then
    { s with lastStrongSpeech := some now } else s
  if isLikelySpeech peak average then
    let s2 := { s1 with silenceStart := none }
    if !s2.isRecording then
      startRecordingS { s2 with speechStart := some now,
                                lastStrongSpeech := some now } now
    else (s2, VadAction.none)
  else
    if s1.isRecording then
      match s1.silenceStart with
      | Option.none => ({ s1 with silenceStart := some now }, VadAction.none)
      | some ss =>
          let silenceDuration := now - ss
          let speechDuration := now - s1.speechStart.getD 0
          if SILENCE_DURATION < silenceDuration then
            if SPEECH_MIN_DURATION < speechDuration then
              (stopRecordingS s1, VadAction.stopSilence)
            else
              ({ cancelRecordingS s1 with silenceStart := none,
                                          speechStart := none },
               VadAction.cancelTooShort)
          else (s1, VadAction.none)
    else (s1, VadAction.none)

/-- One VAD tick, `checkVoiceActivity` (lines 666-755): early-outs when
not listening or audio is playing / a response is processing, then the
three recording failsafes in source order, then classification. -/
def checkVoiceActivity (s : VadState) (data : List ℕ) (now : ℕ) :
    VadState × VadAction :=
  if !s.analyserPresent || !s.isListening then (s, VadAction.none)
  else if s.isAudioPlaying || s.processingResponse then (s, VadAction.none)
  else
    let average := bandAverage data
    let peak := bandPeak data
    if s.isRecording && s.recordingStartTime.isSome then
      let recordingDuration := now - s.recordingStartTime.getD 0
      if MAX_RECORDING_DURATION < recordingDuration then
        (stopRecordingS s, VadAction.stopMaxDuration)
      else if FORCE_STOP_AFTER_MS < recordingDuration then
        (stopRecordingS s, VadAction.stopForceStop)
      else if s.lastStrongSpeech.isSome &&
          decide (LOW_ACTIVITY_TIMEOUT_MS < now - s.lastStrongSpeech.getD 0) then
        (stopRecordingS s, VadAction.stopLowActivity)
      else vadClassify s now average peak
    else vadClassify s now average peak

/-! ### Recorder / transport model (lines 757-896, 834-870, 472-476)

Chunks are identified by numbers; an `audio` batch message carries the
list of chunks concatenated into its blob.  The `MediaRecorder`'s
`dataavailable` and `stop` events are asynchronous: a call to
`mediaRecorder.stop()` (from `stopRecording` or `cancelRecording`)
returns before they fire, so they appear as later events of the trace.
The model assumes a `MediaRecorder` exists, which holds whenever a
recording was started. -/

/-- Messages the recorder paths send over the websocket. -/
inductive WireMsg where
  | audioStreamStart
  | audioChunk (c : ℕ)
  | audioCommit
  | audioBlob (cs : List ℕ)
  deriving DecidableEq, Repr

/-- Refs read and written by the recorder handlers. `sendRecently`
abstracts `now - lastAudioSendTimeRef.current < 300`. -/
structure RecState where
  wsOpen : Bool
  isStreamingMode : Bool
  streamingStarted : Bool
  audioChunks : List ℕ
  sendingAudio : Bool
  sendRecently : Bool
  deriving DecidableEq, Repr

/-- `sendAudioChunk` (lines 842-859): drops the chunk unless the socket
is open and the streaming session is started. -/
def sendAudioChunkR (s : RecState) (c : ℕ) : List WireMsg :=
  if !s.wsOpen || !s.streamingStarted then [] else [WireMsg.audioChunk c]

/-- `sendStreamCommit` (lines 861-870): guarded on an open socket. -/
def sendStreamCommitR (s : RecState) : List WireMsg :=
  if !s.wsOpen then [] else [WireMsg.audioCommit]

/-- `sendAudio` (lines 898-992): guarded on an open socket, no send in
flight, and no send within the last 300 ms; then emits one `audio`
message carrying the blob. -/
def sendAudioR (s : RecState) (cs : List ℕ) : List WireMsg :=
  if !s.wsOpen then []
  else if s.sendingAudio then []
  else if s.sendRecently then []
  else [WireMsg.audioBlob cs]

/-- Asynchronous recorder / server events processed after a recording
was started. `dataavailable` carries the chunk and its byte size. -/
inductive RecEvent where
  | dataavailable (c : ℕ) (size : ℕ)
  | streamReady
  | recStop
  deriving DecidableEq, Repr

/-- One recorder event. `dataavailable` (lines 771-780) buffers the
chunk and, in streaming mode with the stream started, forwards it;
`streamReady` (lines 472-476) marks the stream started and flushes the
buffered chunks in order (`startStreamingChunks`, lines 834-840);
`recStop` (lines 782-809) commits in streaming mode and sends the
buffered blob in batch mode. -/
def recStep (s : RecState) (e : RecEvent) : RecState × List WireMsg :=
  match e with
  | RecEvent.dataavailable c size =>
      if size = 0 then (s, [])
      else
        let s1 := { s with audioChunks := s.audioChunks ++ [c] }
        if s1.isStreamingMode && s1.streamingStarted then
          (s1, sendAudioChunkR s1 c)
        else (s1, [])
  | RecEvent.streamReady =>
      let s1 := { s with streamingStarted := true }
      (s1, s1.audioChunks.flatMap (fun c => sendAudioChunkR s1 c))
  | RecEvent.recStop =>
      if s.isStreamingMode then
        let out := if s.streamingStarted then sendStreamCommitR s else []
        ({ s with streamingStarted := false }, out)
      else
        if s.audioChunks.length = 0 then (s, [])
        else (s, sendAudioR s s.audioChunks)

/-- Processes a list of recorder events, concatenating the messages sent. -/
def processEvents : RecState → List RecEvent → RecState × List WireMsg
  | s, [] => (s, [])
  | s, e :: es =>
      let r := recStep s e
      let rest := processEvents r.1 es
      (rest.1, r.2 ++ rest.2)

/-- Synchronous part of `startRecording` (lines 757-832): empties the
chunk buffer, clears `streamingStarted`, and in streaming mode sends
`audio_stream_start` over an open socket. -/
def startRecordingR (wsOpen streamingMode : Bool) : RecState × List WireMsg :=
  let s : RecState :=
    { wsOpen := wsOpen, isStreamingMode := streamingMode,
      streamingStarted := false, audioChunks := [],
      sendingAudio := false, sendRecently := false }
  (s, if streamingMode && wsOpen then [WireMsg.audioStreamStart] else [])

/-- Synchronous part of `cancelRecording` (lines 885-896): calls
`mediaRecorder.stop()` (whose `dataavailable`/`stop` events fire later),
then empties the chunk buffer and clears `streamingStarted`. -/
def cancelRecordingR (s : RecState) : RecState :=
  { s with audioChunks := [], streamingStarted := false }

/-! ### Playback queue (`playAudio` lines 602-616, `processAudioQueue`
lines 570-599) -/

/-- `playAudio`'s queue update: if the queue is non-empty it is cleared,
then the new item is appended. -/
def enqueueAudio (q : List ℕ) (x : ℕ) : List ℕ :=
  (if 0 < q.length then [] else q) ++ [x]

/-- Queue events: an enqueue, or `processAudioQueue` shifting the next
item into playback. -/
inductive QEvent where
  | enq (x : ℕ)
  | playNext
  deriving DecidableEq, Repr

/-- One queue step on (pending queue, items played so far):
`processAudioQueue` plays only via `shift()` from the front. -/
def qStep : List ℕ × List ℕ → QEvent → List ℕ × List ℕ
  | (q, played), QEvent.enq x => (enqueueAudio q x, played)
  | (q, played), QEvent.playNext =>
      match q with
      | [] => ([], played)
      | h :: t => (t, played ++ [h])

/-- Runs a queue trace from the initial empty queue. -/
def qRun (tr : List QEvent) : List ℕ × List ℕ := tr.foldl qStep ([], [])

/-- Payload of the last enqueue of a trace, if any. -/
def lastEnq (tr : List QEvent) : Option ℕ :=
  tr.foldl (fun acc e => match e with | QEvent.enq x => some x | QEvent.playNext => acc)
    Option.none

/-! ### Duplicate-response filter (`handleWebSocketMessage`, lines 390-415) -/

/-- Duplicate test of lines 399-405: a `response` is a duplicate when
another response is being processed, or it arrives within
`RESPONSE_DEBOUNCE_MS` with exactly the same text, or within that window
with the same first 50 characters and that shared head longer than 20
characters. -/
def isDuplicateResponse (processing : Bool) (now last : ℕ)
    (text lastText : List Char) : Bool :=
  processing ||
  (decide (now - last < RESPONSE_DEBOUNCE_MS) && decide (text = lastText)) ||
  (decide (now - last < RESPONSE_DEBOUNCE_MS) &&
    decide (text.take 50 = lastText.take 50) &&
    decide (20 < (text.take 50).length))

/-- Modelled from the spec: the duplicate rule of section 4.5, without
the length guard — processing in flight, or exact text match within the
window, or first-50-characters match within the window. -/
def specDuplicateResponse (processing : Bool) (now last : ℕ)
    (text lastText : List Char) : Bool :=
  processing ||
  (decide (now - last < RESPONSE_DEBOUNCE_MS) && decide (text = lastText)) ||
  (decide (now - last < RESPONSE_DEBOUNCE_MS) &&
    decide (text.take 50 = lastText.take 50))

/-! ### End-of-interview fallback (`endInterview`, lines 994-1030)

`endInterview` is a closure created at render time; the fallback
`setTimeout` callback tests the `isEndingInterview` value closed over at
that render, not the live state.  The End Interview button is disabled
while `isEndingInterview` is true, so the click that runs `endInterview`
always comes from a render where the captured value is `false`. -/

/-- Session resources released by `cleanupResources` (lines 212-241). -/
structure SessionResources where
  wsOpen : Bool
  micTracksLive : Bool
  audioContextOpen : Bool
  vadIntervalActive : Bool
  countdownActive : Bool
  deriving DecidableEq, Repr

/-- `cleanupResources`: closes the socket, stops the tracks, closes the
audio context, clears both intervals. -/
def cleanupResources (_ : SessionResources) : SessionResources :=
  { wsOpen := false, micTracksLive := false, audioContextOpen := false,
    vadIntervalActive := false, countdownActive := false }

/-- Point of `endInterview` after sending `end_interview`: the React
state flag, the value the fallback closure captured, and the resources. -/
structure EndFlow where
  stateIsEnding : Bool
  capturedIsEnding : Bool
  res : SessionResources
  deriving DecidableEq, Repr

/-- Clicking End Interview (button enabled only while `isEndingInterview`
is false): sets the state flag, sends `end_interview`, and registers the
fallback whose closure captured the render's `false`. -/
def clickEndInterview (r : SessionResources) : EndFlow :=
  { stateIsEnding := true, capturedIsEnding := false, res := r }

/-- The fallback timeout firing 15 s later with no assessment received
(lines 1018-1024): it cleans up only if the captured
`isEndingInterview` is true. -/
def assessmentFallbackFires (f : EndFlow) : EndFlow :=
  if f.capturedIsEnding then
    { f with stateIsEnding := false, res := cleanupResources f.res }
  else f

/-! ### Response arrival during a recording (lines 417-425, 443) -/

/-- Synchronous work of the `response` case on a non-duplicate message
while listening/recording: `stopListening()`, `cancelRecording()`, then
`playAudio` enqueues the response audio.  Returns the new listening
flag, the recorder state, and the playback queue. -/
def handleResponseWhileRecording (listening recording : Bool)
    (rec : RecState) (queue : List ℕ) (respAudio : ℕ) :
    Bool × RecState × List ℕ :=
  let listening1 := if listening then false else listening
  let rec1 := if recording then cancelRecordingR rec else rec
  (listening1, rec1, enqueueAudio queue respAudio)

/-- An all-zero analyser frame (256 bins, `fftSize = 512`): silence. -/
def silentFrame : List ℕ := List.replicate 256 0

/-! ## Helper lemmas -/

set_option maxRecDepth 4000 in
theorem bandAverage_silent : bandAverage silentFrame = 0 := by
  simp [bandAverage, speechBand, silentFrame]

set_option maxRecDepth 4000 in
theorem bandPeak_silent : bandPeak silentFrame = 0 := by
  simp [bandPeak, speechBand, silentFrame]

theorem isLikelySpeech_silent :
    isLikelySpeech (bandPeak silentFrame) (bandAverage silentFrame) = false := by
  rw [bandAverage_silent, bandPeak_silent]
  simp [isLikelySpeech, MIN_SPEECH_VOLUME]

theorem processEvents_append (s : RecState) (xs ys : List RecEvent) :
    processEvents s (xs ++ ys) =
      ((processEvents (processEvents s xs).1 ys).1,
       (processEvents s xs).2 ++ (processEvents (processEvents s xs).1 ys).2) := by
  induction xs generalizing s with
  | nil => simp [processEvents]
  | cons e es ih => simp [processEvents, ih]

theorem qRun_snoc (tr : List QEvent) (e : QEvent) :
    qRun (tr ++ [e]) = qStep (qRun tr) e := by
  simp [qRun, List.foldl_append]

theorem lastEnq_snoc_enq (tr : List QEvent) (x : ℕ) :
    lastEnq (tr ++ [QEvent.enq x]) = some x := by
  simp [lastEnq, List.foldl_append]

theorem lastEnq_snoc_play (tr : List QEvent) :
    lastEnq (tr ++ [QEvent.playNext]) = lastEnq tr := by
  simp [lastEnq, List.foldl_append]

theorem take_fifty_short_eq (t lt : List Char) (h : t.take 50 = lt.take 50)
    (hlen : (t.take 50).length ≤ 20) : t = lt := by
  rw [List.length_take] at hlen
  have h1 : t.length ≤ 20 := by omega
  have h2 : t.take 50 = t := List.take_of_length_le (by omega)
  have h3 : lt.length ≤ 20 := by
    have := congrArg List.length h
    rw [List.length_take, List.length_take] at this
    omega
  have h4 : lt.take 50 = lt := List.take_of_length_le (by omega)
  rw [h2, h4] at h
  exact h

/-! ## Claims -/

/-- C6: a VAD tick performs no classification and triggers no state
change when the controller is not listening, or audio playback is in
flight, or a response is being processed: `checkVoiceActivity` returns
the state unchanged with no action. -/
theorem vad_ticks_only_while_listening (s : VadState) (data : List ℕ) (now : ℕ)
    (h : s.isListening = false ∨ s.isAudioPlaying = true ∨
      s.processingResponse = true) :
    checkVoiceActivity s data now = (s, VadAction.none) := by
  unfold checkVoiceActivity
  rcases h with h | h | h <;> simp [h]

/-- Witness for C6 at a concrete state with audio playing. -/
theorem vad_ticks_only_while_listening_witness :
    checkVoiceActivity
      ⟨true, true, true, true, true, false, false, none, none, none, none⟩
      [] 0 =
      (⟨true, true, true, true, true, false, false, none, none, none, none⟩,
       VadAction.none) :=
  vad_ticks_only_while_listening _ [] 0 (Or.inr (Or.inl rfl))

/-- C5: `playAudio` clears every pending item before appending the new
one, so right after any enqueue exactly the newest item is pending; and
along any trace of enqueues and `processAudioQueue` shifts, the pending
queue holds at most one item, which is always the most recently
enqueued one — stale queued items are never played. -/
theorem playback_queue_newest_only :
    (∀ (q : List ℕ) (x : ℕ), enqueueAudio q x = [x]) ∧
    (∀ tr : List QEvent, (qRun tr).1 = [] ∨
      ∃ x, (qRun tr).1 = [x] ∧ lastEnq tr = some x) := by
  have henq : ∀ (q : List ℕ) (x : ℕ), enqueueAudio q x = [x] := by
    intro q x
    cases q <;> simp [enqueueAudio]
  refine ⟨henq, ?_⟩
  intro tr
  induction tr using List.reverseRecOn with
  | nil => left; rfl
  | append_singleton tr e ih =>
      cases e with
      | enq x =>
          right
          refine ⟨x, ?_, lastEnq_snoc_enq tr x⟩
          rw [qRun_snoc]
          rcases hq : qRun tr with ⟨q, played⟩
          simp [qStep, henq]
      | playNext =>
          left
          rw [qRun_snoc]
          rcases hq : qRun tr with ⟨q, played⟩
          rw [hq] at ih
          rcases ih with h | ⟨x, hx, _⟩
          · simp only at h
            subst h
            simp [qStep]
          · simp only at hx
            subst hx
            simp [qStep]

/-- C2 (code bug): after End Interview is clicked (possible only while
`isEndingInterview` is false, so the fallback closure captured `false`)
and no assessment arrives, the 15 s fallback timeout leaves every
resource held — the stale captured flag makes its guard false, so the
session hangs instead of force-cleaning up. -/
theorem assessment_timeout_never_cleans_up :
    (assessmentFallbackFires
      (clickEndInterview ⟨true, true, true, true, true⟩)).res =
      ⟨true, true, true, true, true⟩ ∧
    (assessmentFallbackFires
      (clickEndInterview ⟨true, true, true, true, true⟩)).res.wsOpen = true ∧
    cleanupResources ⟨true, true, true, true, true⟩ ≠
      ⟨true, true, true, true, true⟩ := by decide

/-- C3 (counterexample): the force-stop failsafe cap is not strictly
longer than the max-recording-duration cap — it is strictly shorter
(45000 ms vs 60000 ms). -/
theorem force_stop_shorter_than_max :
    FORCE_STOP_AFTER_MS < MAX_RECORDING_DURATION ∧
    ¬ MAX_RECORDING_DURATION < FORCE_STOP_AFTER_MS := by decide

/-- C3 (amended): `FORCE_STOP_AFTER_MS` is strictly shorter than
`MAX_RECORDING_DURATION`; on a tick during Recording the max-duration
branch fires exactly when the duration exceeds `MAX_RECORDING_DURATION`,
and otherwise the force-stop branch fires when it exceeds
`FORCE_STOP_AFTER_MS` — so force-stop is the earlier, primary cap. -/
theorem recording_caps_order (s : VadState) (data : List ℕ) (now t0 : ℕ)
    (hA : s.analyserPresent = true) (hL : s.isListening = true)
    (hP : s.isAudioPlaying = false) (hPr : s.processingResponse = false)
    (hRec : s.isRecording = true) (ht0 : s.recordingStartTime = some t0) :
    FORCE_STOP_AFTER_MS < MAX_RECORDING_DURATION ∧
    (MAX_RECORDING_DURATION < now - t0 →
      checkVoiceActivity s data now = (stopRecordingS s, VadAction.stopMaxDuration)) ∧
    (FORCE_STOP_AFTER_MS < now - t0 → now - t0 ≤ MAX_RECORDING_DURATION →
      checkVoiceActivity s data now = (stopRecordingS s, VadAction.stopForceStop)) := by
  refine ⟨by decide, ?_, ?_⟩
  · intro hmax
    unfold checkVoiceActivity
    simp [hA, hL, hP, hPr, hRec, ht0, hmax]
  · intro hforce hmax
    unfold checkVoiceActivity
    simp [hA, hL, hP, hPr, hRec, ht0, hforce, Nat.not_lt.mpr hmax]

/-- Witness for C3 at concrete durations 49900 ms and 69900 ms. -/
theorem recording_caps_order_witness :
    checkVoiceActivity
      ⟨true, true, true, true, false, false, true, some 100, none, none, none⟩
      [] 50000 =
      (stopRecordingS
        ⟨true, true, true, true, false, false, true, some 100, none, none, none⟩,
       VadAction.stopForceStop) ∧
    checkVoiceActivity
      ⟨true, true, true, true, false, false, true, some 100, none, none, none⟩
      [] 70000 =
      (stopRecordingS
        ⟨true, true, true, true, false, false, true, some 100, none, none, none⟩,
       VadAction.stopMaxDuration) :=
  ⟨(recording_caps_order _ [] 50000 100 rfl rfl rfl rfl rfl rfl).2.2
      (by decide) (by decide),
   (recording_caps_order _ [] 70000 100 rfl rfl rfl rfl rfl rfl).2.1 (by decide)⟩

/-- C4 (code bug): in batch mode, cancelling a recording clears the
buffer, but the recorder's final `dataavailable` event (which fires
after `cancelRecording` returns and before the `stop` event) re-buffers
its chunk, and the `stop` handler then sends it as an `audio` message;
only the reverse event order stays silent. -/
theorem cancelled_recording_still_sends_audio :
    (processEvents (cancelRecordingR ⟨true, false, false, [7], false, false⟩)
      [RecEvent.dataavailable 8 100, RecEvent.recStop]).2 =
      [WireMsg.audioBlob [8]] ∧
    (processEvents (cancelRecordingR ⟨true, false, false, [7], false, false⟩)
      [RecEvent.recStop, RecEvent.dataavailable 8 100]).2 = [] := by decide

/-- C10 (code bug): a non-duplicate response arriving mid-recording does
stop listening, cancel the recording, and enqueue exactly the response
audio — but the cancelled recorder's final `dataavailable` chunk is
still sent to the server as an `audio` message by the subsequent `stop`
event in batch mode. -/
theorem response_cancel_still_sends_audio :
    (handleResponseWhileRecording true true
      ⟨true, false, false, [7], false, false⟩ [] 99).1 = false ∧
    (handleResponseWhileRecording true true
      ⟨true, false, false, [7], false, false⟩ [] 99).2.2 = [99] ∧
    (handleResponseWhileRecording true true
      ⟨true, false, false, [7], false, false⟩ [] 99).2.1.audioChunks = [] ∧
    (processEvents
      (handleResponseWhileRecording true true
        ⟨true, false, false, [7], false, false⟩ [] 99).2.1
      [RecEvent.dataavailable 8 100, RecEvent.recStop]).2 =
      [WireMsg.audioBlob [8]] := by decide

/-- C7 (counterexample): the click-peak and click-average thresholds are
the hard-coded literals 200 and 20 (the boundary behaviour shows they
are exact), and neither value appears among the named Voice Activity
Detection settings constants — they are not configuration values. -/
theorem click_thresholds_hardcoded :
    isLikelyClick 201 19 = true ∧ isLikelyClick 200 19 = false ∧
    isLikelyClick 201 20 = false ∧
    (200 : ℕ) ∉ vadSettings ∧ (20 : ℕ) ∉ vadSettings := by
  refine ⟨?_, ?_, ?_, by decide, by decide⟩ <;> norm_num [isLikelyClick]

/-- C7 (amended): on every frame, the tick is classified as speech iff
the mean over the sub-band (bins 2..127) exceeds the speech-volume
threshold and it is not an impulsive click (peak above the click-peak
threshold with mean below the click-average threshold) — with the
speech-volume threshold the settings constant `MIN_SPEECH_VOLUME` (35)
and the click thresholds the fixed literals 200 and 20. -/
theorem speech_classification_rule (data : List ℕ) :
    isLikelySpeech (bandPeak data) (bandAverage data) =
      specSpeechRule (MIN_SPEECH_VOLUME : ℚ) 200 20
        (bandPeak data) (bandAverage data) := by
  simp only [isLikelySpeech, isLikelyClick, specSpeechRule]
  norm_cast

/-- C8: the duplicate-response test of the code (which adds a
longer-than-20-characters guard to the prefix clause) coincides with the
spec's rule — processing in flight, or exact text match within the
debounce window, or matching first-50-characters within the window —
on all inputs; and two identical texts 500 ms apart (window 2000 ms)
are flagged as duplicate while a first response is not. -/
theorem duplicate_filter_iff :
    (∀ (processing : Bool) (now last : ℕ) (text lastText : List Char),
      isDuplicateResponse processing now last text lastText =
        specDuplicateResponse processing now last text lastText) ∧
    isDuplicateResponse false 1500 1000 ['O', 'k'] ['O', 'k'] = true ∧
    isDuplicateResponse false 1000 0 ['O', 'k'] [] = false := by
  refine ⟨?_, by decide, by decide⟩
  intro processing now last text lastText
  unfold isDuplicateResponse specDuplicateResponse
  cases processing <;> simp
  by_cases hw : now - last < RESPONSE_DEBOUNCE_MS <;> simp [hw]
  by_cases ht : text = lastText <;> simp [ht]
  by_cases hp : text.take 50 = lastText.take 50 <;> simp [hp]
  by_contra hlen
  exact ht (take_fifty_short_eq text lastText hp
    (by rw [List.length_take]; omega))

theorem processEvents_preReady (pre : List ℕ) (s : RecState)
    (hstart : s.streamingStarted = false) :
    processEvents s (pre.map fun c => RecEvent.dataavailable c 1) =
      ({ s with audioChunks := s.audioChunks ++ pre }, []) := by
  induction pre generalizing s with
  | nil => simp [processEvents]
  | cons c cs ih =>
      simp only [List.map_cons, processEvents, recStep, hstart]
      rw [ih _ (by simp [hstart])]
      simp

theorem processEvents_postReady (post : List ℕ) (s : RecState)
    (hws : s.wsOpen = true) (hmode : s.isStreamingMode = true)
    (hstart : s.streamingStarted = true) :
    processEvents s (post.map fun c => RecEvent.dataavailable c 1) =
      ({ s with audioChunks := s.audioChunks ++ post },
       post.map WireMsg.audioChunk) := by
  induction post generalizing s with
  | nil => simp [processEvents]
  | cons c cs ih =>
      simp only [List.map_cons, processEvents, recStep, sendAudioChunkR, hstart,
        hmode, hws]
      rw [ih _ (by simp [hws]) (by simp [hmode]) (by simp [hstart])]
      simp

theorem flatMap_singleton_map (l : List ℕ) (f : ℕ → WireMsg) :
    (l.flatMap fun c => [f c]) = l.map f := by
  induction l with
  | nil => rfl
  | cons c cs ih => simp [ih]

theorem recStep_streamReady (s : RecState) (hws : s.wsOpen = true) :
    recStep s RecEvent.streamReady =
      ({ s with streamingStarted := true },
       s.audioChunks.map WireMsg.audioChunk) := by
  simp only [recStep, sendAudioChunkR, hws]
  congr 1
  simpa using flatMap_singleton_map s.audioChunks WireMsg.audioChunk

/-- C9: in streaming mode over an open socket, starting a recording
sends `audio_stream_start`; chunks produced before `stream_ready` are
buffered and produce no transport message; once `stream_ready` arrives
the buffered chunks are flushed in production order, chunks produced
afterwards are forwarded immediately, and the recorder's stop event
sends exactly one `audio_commit` — so the full trace emits every chunk
exactly once, in order, followed by the commit. -/
theorem streaming_chunks_gated_and_ordered (pre post : List ℕ) :
    (startRecordingR true true).2 = [WireMsg.audioStreamStart] ∧
    (processEvents (startRecordingR true true).1
      (pre.map fun c => RecEvent.dataavailable c 1)).2 = [] ∧
    (processEvents (startRecordingR true true).1
      (pre.map fun c => RecEvent.dataavailable c 1)).1.audioChunks = pre ∧
    (processEvents (startRecordingR true true).1
      (pre.map (fun c => RecEvent.dataavailable c 1) ++
        RecEvent.streamReady ::
          (post.map (fun c => RecEvent.dataavailable c 1) ++
            [RecEvent.recStop]))).2 =
      pre.map WireMsg.audioChunk ++ post.map WireMsg.audioChunk ++
        [WireMsg.audioCommit] := by
  have hpre := processEvents_preReady pre (startRecordingR true true).1 rfl
  refine ⟨rfl, by rw [hpre], by rw [hpre]; rfl, ?_⟩
  rw [processEvents_append, hpre]
  simp only [processEvents]
  rw [recStep_streamReady _ rfl]
  simp only [startRecordingR]
  rw [processEvents_append,
    processEvents_postReady post _ rfl rfl rfl]
  simp [processEvents, recStep, sendStreamCommitR]

/-- C1 (code bug): at silence-stop time the code compares
`now - speechStart` — a duration that includes the trailing silence —
with `SPEECH_MIN_DURATION`.  Since `SILENCE_DURATION` (2500 ms) exceeds
`SPEECH_MIN_DURATION` (600 ms) and speech onset precedes silence onset
in every reachable recording, the tick always takes the `stopRecording`
(finalize) path: the cancel path of the claim is unreachable, and a
recording whose actual speech lasted under `SPEECH_MIN_DURATION` is
still finalized into an Utterance. -/
theorem silence_stop_always_finalizes (s : VadState) (data : List ℕ)
    (now ss sp t0 : ℕ)
    (hA : s.analyserPresent = true) (hL : s.isListening = true)
    (hP : s.isAudioPlaying = false) (hPr : s.processingResponse = false)
    (hRec : s.isRecording = true)
    (ht0 : s.recordingStartTime = some t0)
    (hdur : now - t0 ≤ FORCE_STOP_AFTER_MS)
    (hact : ∀ l, s.lastStrongSpeech = some l →
      now - l ≤ LOW_ACTIVITY_TIMEOUT_MS)
    (hframe : isLikelySpeech (bandPeak data) (bandAverage data) = false)
    (hss : s.silenceStart = some ss) (hsp : s.speechStart = some sp)
    (horder : sp ≤ ss) (hsil : SILENCE_DURATION < now - ss) :
    (checkVoiceActivity s data now).2 = VadAction.stopSilence := by
  have hmax : ¬ MAX_RECORDING_DURATION < now - t0 := by
    have h1 : FORCE_STOP_AFTER_MS ≤ MAX_RECORDING_DURATION := by decide
    omega
  have hforce : ¬ FORCE_STOP_AFTER_MS < now - t0 := by omega
  have hmin : SPEECH_MIN_DURATION < now - sp := by
    have h2 : now - ss ≤ now - sp := Nat.sub_le_sub_left horder now
    have h3 : SPEECH_MIN_DURATION ≤ SILENCE_DURATION := by decide
    omega
  unfold checkVoiceActivity
  have hgoal :
      (vadClassify s now (bandAverage data) (bandPeak data)).2 =
        VadAction.stopSilence := by
    unfold vadClassify
    by_cases hstrong :
        (MIN_SPEECH_VOLUME : ℚ) * (3 / 2) < bandAverage data <;>
      simp [hstrong, hframe, hRec, hss, hsp, hsil, hmin]
  cases hls : s.lastStrongSpeech with
  | none => simp [hA, hL, hP, hPr, hRec, ht0, hmax, hforce, hls, hgoal]
  | some l =>
      have hla : ¬ LOW_ACTIVITY_TIMEOUT_MS < now - l :=
        Nat.not_lt.mpr (hact l hls)
      simp [hA, hL, hP, hPr, hRec, ht0, hmax, hforce, hls, hla, hgoal]

/-- Witness for C1: a recording with speech onset at 1000 ms and silence
from 1100 ms on — only 100 ms of actual speech, below the 600 ms
minimum — is finalized (stop path), not cancelled, at the silent tick
at 3701 ms. -/
theorem silence_stop_always_finalizes_witness :
    (checkVoiceActivity
      ⟨true, true, true, true, false, false, true, some 1000, some 1100,
       some 1000, some 1000⟩ silentFrame 3701).2 = VadAction.stopSilence ∧
    1100 - 1000 < SPEECH_MIN_DURATION :=
  ⟨silence_stop_always_finalizes _ silentFrame 3701 1100 1000 1000
      rfl rfl rfl rfl rfl rfl (by decide)
      (fun l hl => by cases hl; decide)
      isLikelySpeech_silent rfl rfl (by decide) (by decide),
   by decide⟩

end Granitalent
